import Mathlib

/-!
Shallow embedding of the orchestration core of the Agentic Document Processor
client (src/App.tsx, src/constants.ts, src/types.ts, and the service wrapper
in src/services/geminiService.ts).

The React component state is modelled as an explicit record `AppState`; each
user intent handler becomes a pure function from the prior state (plus the
outcome of any external asynchronous call, passed as an explicit parameter)
to the next state.  Numbers that are JavaScript floats (latencies, the 1.2
scale factor) are modelled as rationals; at every concrete value a claim
mentions (120 * 1.2, 1 * 1.2) the IEEE float64 evaluation agrees exactly
with the rational one.

A modelling note that matters for render failure: in `handleFileChange` the
try/catch block wraps only synchronous statements (constructing the
FileReader, assigning its onload handler, and calling readAsArrayBuffer).
The PDF parsing and page rasterisation happen inside the `async` onload
callback, whose rejection is not awaited by anything, so a parse failure
never reaches the catch block: no state update at all occurs after the
synchronous part.  The embedding reproduces this: `fileReaderOnload` is the
identity on failure.
-/

/-- Mirror of the uploaded File object as far as the code inspects it:
`handleFileChange` reads only `selectedFile.type`. -/
structure FileInfo where
  name : String
  fileType : String
  deriving DecidableEq, Repr

/-- `Agent` from src/types.ts.  The model field is a plain string in the
embedding (the source restricts it to two literals). -/
structure Agent where
  name : String
  prompt : String
  model : String
  deriving DecidableEq, Repr

/-- `PageData` from src/types.ts. -/
structure PageData where
  pageNumber : Nat
  imageDataUrl : String
  deriving DecidableEq, Repr

/-- `AnalysisResult` from src/types.ts; `latency` is a rational standing in
for the JavaScript number. -/
structure AnalysisResult where
  agentName : String
  output : String
  latency : ℚ
  provider : String
  model : String
  deriving DecidableEq, Repr

/-- `ProcessingState` from src/types.ts. -/
inductive ProcessingState where
  | IDLE
  | UPLOADING
  | RENDERING_PDF
  | PERFORMING_OCR
  | ANALYZING
  | COMPLETE
  | ERROR
  deriving DecidableEq, Repr

/-- The useState hooks of the App component, gathered into one record. -/
structure AppState where
  file : Option FileInfo
  pdfPages : List PageData
  selectedPageNumbers : Finset Nat
  ocrText : String
  selectedAgents : List Agent
  results : List AnalysisResult
  processingState : ProcessingState
  error : Option String
  deriving DecidableEq

/-- The MIME type the upload handler accepts. -/
def pdfMime : String := "application/pdf"

/-- Outcome of the external pdfjs render: on success, the document has
`numPages` pages and `image i` is the data URL rasterised for page `i`;
otherwise the getDocument (or a later) promise rejects. -/
inductive RenderOutcome where
  | success (numPages : Nat) (image : Nat → String)
  | failure

/-- The `pagesData` list built by the onload loop: one entry per page
`i = 1 .. numPages`, in loop order. -/
def renderedPages (numPages : Nat) (image : Nat → String) : List PageData :=
  (List.range numPages).map (fun i => ⟨i + 1, image (i + 1)⟩)

/-- The `newSelectedPages` set built by the same loop: page numbers
`1 .. numPages` added one by one. -/
def loopSelection (numPages : Nat) : Finset Nat :=
  (List.range numPages).foldl (fun acc i => insert (i + 1) acc) ∅

/-- Synchronous part of `handleFileChange` (src/App.tsx lines 31 to 41 and
the else branch at line 74): on a file of PDF type it stores the file,
clears pages, page selection, extracted text, results and the prior error,
and enters RENDERING_PDF; on a missing or non-PDF file it only sets the
error message.  `selectedAgents` is not touched in either branch. -/
def handleFileChangeSync (s : AppState) (f : Option FileInfo) : AppState :=
  match f with
  | some file =>
    if file.fileType = pdfMime then
      { s with file := some file
               pdfPages := []
               selectedPageNumbers := ∅
               ocrText := ""
               results := []
               error := none
               processingState := .RENDERING_PDF }
    else
      { s with error := some "Please upload a valid PDF file." }
  | none => { s with error := some "Please upload a valid PDF file." }

/-- The FileReader onload callback (src/App.tsx lines 44 to 67).  On a
successful parse it stores the rendered pages, selects all pages and
returns to IDLE.  On a parse failure the rejection of the async callback
escapes the surrounding try/catch (which guards only synchronous code), so
no state update occurs: the catch branch that would set the error message
and the ERROR state is unreachable for render failures. -/
def fileReaderOnload (s : AppState) (r : RenderOutcome) : AppState :=
  match r with
  | .success n image =>
      { s with pdfPages := renderedPages n image
               selectedPageNumbers := loopSelection n
               processingState := .IDLE }
  | .failure => s

/-- Whether the guard `selectedFile && selectedFile.type === pdf` holds. -/
def isValidPdf : Option FileInfo → Bool
  | some file => file.fileType = pdfMime
  | none => false

/-- Full effect of a file-selection event, composing the synchronous part
with the later onload callback (which only runs when the guard passed and
the read produced bytes to parse). -/
def handleFileChange (s : AppState) (f : Option FileInfo) (r : RenderOutcome) :
    AppState :=
  if isValidPdf f then fileReaderOnload (handleFileChangeSync s f) r
  else handleFileChangeSync s f

/-- `togglePageSelection` (src/App.tsx lines 79 to 89): delete the page
number if present, insert it otherwise. -/
def togglePageSelection (pageNumber : Nat) (prev : Finset Nat) : Finset Nat :=
  if pageNumber ∈ prev then prev.erase pageNumber else insert pageNumber prev

/-- Outcome of the external OCR call `performOcrOnPages`. -/
inductive OcrOutcome where
  | success (text : String)
  | failure (msg : String)

/-- Result of running the `handleOcr` intent: the next state plus whether
the extraction client was invoked at all. -/
structure OcrRun where
  state : AppState
  clientInvoked : Bool
  deriving DecidableEq

/-- `pagesToProcess` (src/App.tsx line 92): the rendered pages whose page
number is currently selected, in rendered order. -/
def pagesToProcess (s : AppState) : List PageData :=
  s.pdfPages.filter (fun p => p.pageNumber ∈ s.selectedPageNumbers)

/-- `handleOcr` (src/App.tsx lines 91 to 110).  With no selected page it
sets a validation error and returns without calling the client and without
any other change.  Otherwise it clears the error, calls the client, and on
success stores the text and returns to IDLE; on failure it stores the
failure message and enters ERROR. -/
def handleOcr (s : AppState) (o : OcrOutcome) : OcrRun :=
  if (pagesToProcess s).length = 0 then
    ⟨{ s with error := some "Please select at least one page for OCR." }, false⟩
  else
    match o with
    | .success text =>
        ⟨{ s with error := none
                  ocrText := text
                  processingState := .IDLE }, true⟩
    | .failure msg =>
        ⟨{ s with error := some msg
                  processingState := .ERROR }, true⟩

/-- Settlement of one agent invocation: either the accumulated streamed
output with the measured latency, or the thrown error message with the
latency up to the throw. -/
inductive AgentOutcome where
  | success (output : String) (latency : ℚ)
  | failure (msg : String) (latency : ℚ)

/-- The per-agent result constructed inside the fan-out map of
`handleRunAnalysis` (src/App.tsx lines 132 to 158): a successful agent
yields its accumulated output with provider Gemini; a failing agent is
caught inside its own async closure and yields an error-tagged output with
provider System. -/
def mkResult (agent : Agent) : AgentOutcome → AnalysisResult
  | .success out l => ⟨agent.name, out, l, "Gemini", agent.model⟩
  | .failure msg l => ⟨agent.name, "Error: " ++ msg, l, "System", agent.model⟩

/-- Result of running the `handleRunAnalysis` intent: the settled state plus
whether the agent client was invoked. -/
structure AnalysisRun where
  state : AppState
  clientInvoked : Bool
  deriving DecidableEq

/-- `handleRunAnalysis` (src/App.tsx lines 119 to 163).  Validation errors
(empty extracted text, empty agent selection) set a message and change
nothing else.  Otherwise the fan-out maps each selected agent to its own
settled result; `Promise.all` keeps index order, so the settled array is
exactly the map of `mkResult` over the selection in selection order, and
the state then becomes COMPLETE.  Individual completion order never enters
the model, matching `Promise.all` placing results by index. -/
def handleRunAnalysis (s : AppState) (outcome : Agent → AgentOutcome) :
    AnalysisRun :=
  if s.ocrText = "" then
    ⟨{ s with error := some "Please perform OCR on the document first." }, false⟩
  else if s.selectedAgents.length = 0 then
    ⟨{ s with error := some "Please select at least one agent to run." }, false⟩
  else
    ⟨{ s with error := none
              results := s.selectedAgents.map (fun a => mkResult a (outcome a))
              processingState := .COMPLETE }, true⟩

/-- One point of the latency bar chart series in `dashboardData`. -/
structure LatencyPoint where
  name : String
  latency : ℚ
  provider : String
  deriving DecidableEq

/-- One point of the radar (output verbosity) series in `dashboardData`. -/
structure RadarPoint where
  subject : String
  length : Nat
  fullMark : ℚ
  deriving DecidableEq

/-- `Math.max(...results.map(res => res.output.length), 1)`: the maximum of
the output character counts together with the extra argument 1. -/
def maxOutputLength (results : List AnalysisResult) : Nat :=
  results.foldr (fun r m => max r.output.length m) 1

/-- The `latencyData` series of `dashboardData` (src/App.tsx line 166). -/
def latencyData (results : List AnalysisResult) : List LatencyPoint :=
  results.map (fun r => ⟨r.agentName, r.latency, r.provider⟩)

/-- The `radarData` series of `dashboardData` (src/App.tsx lines 167 to
171): each result contributes its character count, and every point carries
the same scale maximum, the floored maximum times 1.2 (= 6/5). -/
def radarData (results : List AnalysisResult) : List RadarPoint :=
  results.map (fun r =>
    ⟨r.agentName, r.output.length, (maxOutputLength results : ℚ) * (6 / 5)⟩)

/-! ### Helper lemmas and concrete sample values -/

/-- The page-selection set built by the render loop is exactly `{1 .. n}`. -/
theorem loopSelection_eq_Icc (n : Nat) : loopSelection n = Finset.Icc 1 n := by
  induction n with
  | zero => simp [loopSelection]
  | succ k ih =>
      have h : loopSelection (k + 1) = insert (k + 1) (loopSelection k) := by
        simp [loopSelection, List.range_succ]
      rw [h, ih]
      ext m
      simp only [Finset.mem_insert, Finset.mem_Icc]
      omega

/-- The result built for an agent carries that agent's name whatever the
outcome was. -/
theorem mkResult_agentName (a : Agent) (o : AgentOutcome) :
    (mkResult a o).agentName = a.name := by
  cases o <;> rfl

/-- Sample agent taken from the static AGENTS catalogue. -/
def agent1 : Agent := ⟨"Document Summarizer", "Provide a concise summary.", "gemini-2.5-flash"⟩

/-- Second sample agent taken from the static AGENTS catalogue. -/
def agent2 : Agent := ⟨"Sentiment Analyzer", "Analyze the overall sentiment.", "gemini-2.5-pro"⟩

/-- A sample rendered page. -/
def pageOne : PageData := ⟨1, "data:image/png;base64,AAAA"⟩

/-- A state ready for an extraction run: one rendered page, selected. -/
def ocrReadyState : AppState :=
  ⟨some ⟨"doc.pdf", "application/pdf"⟩, [pageOne], {1}, "", [], [], .IDLE, none⟩

/-- A state in COMPLETE with extracted text, a selected agent and a result,
used to exercise a re-upload. -/
def completeState : AppState :=
  ⟨some ⟨"old.pdf", "application/pdf"⟩, [pageOne], {1}, "old text", [agent1],
    [⟨"Document Summarizer", "summary", 1, "Gemini", "gemini-2.5-flash"⟩],
    .COMPLETE, none⟩

/-- A state ready for an analysis run: extracted text and two agents. -/
def runState : AppState :=
  ⟨some ⟨"doc.pdf", "application/pdf"⟩, [pageOne], {1}, "Q1 revenue grew 10%.",
    [agent1, agent2], [], .IDLE, none⟩

/-- Outcomes for a fan-out where the sentiment agent throws and the other
succeeds. -/
def sampleOutcome : Agent → AgentOutcome := fun a =>
  if a.name = "Sentiment Analyzer" then
    .failure "Agent \x22Sentiment Analyzer\x22 failed to execute." 2
  else .success "good output" 1

/-! ### Claim theorems -/

/-- Claim C3, amended: a document-selection intent carrying a valid PDF,
received in any state, clears Pages, Page Selection, Extracted Text,
Results and any prior error and transitions to RENDERING_PDF; the Agent
Selection is retained, not cleared (the record equation leaves
`selectedAgents` untouched). -/
theorem claim_C3_select_document (s : AppState) (file : FileInfo)
    (h : file.fileType = pdfMime) :
    handleFileChangeSync s (some file)
      = { s with file := some file
                 pdfPages := []
                 selectedPageNumbers := ∅
                 ocrText := ""
                 results := []
                 error := none
                 processingState := .RENDERING_PDF } := by
  simp [handleFileChangeSync, h]

/-- Claim C3 witness: the amended statement at a concrete COMPLETE state. -/
theorem claim_C3_select_document_witness :
    (FileInfo.fileType ⟨"new.pdf", "application/pdf"⟩ = pdfMime) ∧
    handleFileChangeSync completeState (some ⟨"new.pdf", "application/pdf"⟩)
      = { completeState with
            file := some ⟨"new.pdf", "application/pdf"⟩
            pdfPages := []
            selectedPageNumbers := ∅
            ocrText := ""
            results := []
            error := none
            processingState := .RENDERING_PDF } :=
  ⟨rfl, claim_C3_select_document completeState ⟨"new.pdf", "application/pdf"⟩ rfl⟩

/-- Claim C3 counterexample: the claim as stated says the Agent Selection is
cleared, but re-uploading a valid PDF from a COMPLETE state with one
selected agent leaves that agent selected through the whole render. -/
theorem claim_C3_counterexample :
    (handleFileChange completeState (some ⟨"new.pdf", "application/pdf"⟩)
        (.success 1 (fun _ => "img"))).selectedAgents = [agent1] ∧
    ([agent1] : List Agent) ≠ [] ∧
    (handleFileChangeSync completeState
        (some ⟨"new.pdf", "application/pdf"⟩)).selectedAgents = [agent1] := by
  refine ⟨rfl, by decide, rfl⟩

/-- Claim C4: at a concrete state, a file of PDF type whose bytes cannot be
parsed leaves the Processing State stuck at RENDERING_PDF with no error
recorded — not the Errored state the claim (and the dead catch branch in
the source) intends — although indeed no partially-rendered pages are
retained.  The parse rejection happens inside the async onload callback,
outside the reach of the try/catch. -/
theorem claim_C4_render_failure_stuck :
    (handleFileChange completeState (some ⟨"bad.pdf", "application/pdf"⟩)
        .failure).processingState = .RENDERING_PDF ∧
    (handleFileChange completeState (some ⟨"bad.pdf", "application/pdf"⟩)
        .failure).processingState ≠ .ERROR ∧
    (handleFileChange completeState (some ⟨"bad.pdf", "application/pdf"⟩)
        .failure).pdfPages = [] ∧
    (handleFileChange completeState (some ⟨"bad.pdf", "application/pdf"⟩)
        .failure).error = none := by
  refine ⟨rfl, by decide, rfl, rfl⟩

/-- Claim C9: toggling the same page twice restores the selection, and one
toggle changes no other page number's membership. -/
theorem claim_C9_toggle_page (p : Nat) (S : Finset Nat) :
    togglePageSelection p (togglePageSelection p S) = S ∧
    ∀ q : Nat, q ≠ p → (q ∈ togglePageSelection p S ↔ q ∈ S) := by
  constructor
  · ext q
    by_cases hq : q = p
    · subst hq
      by_cases hp : q ∈ S <;> simp [togglePageSelection, hp]
    · by_cases hp : p ∈ S <;>
        simp [togglePageSelection, hp, Finset.mem_erase, Finset.mem_insert, hq]
  · intro q hq
    by_cases hp : p ∈ S <;>
      simp [togglePageSelection, hp, Finset.mem_erase, Finset.mem_insert, hq]

/-- Claim C9 witness: the toggle laws at page 1 over the selection containing
exactly page 2. -/
theorem claim_C9_toggle_page_witness :
    togglePageSelection 1 (togglePageSelection 1 ({2} : Finset Nat)) = {2} ∧
    ((2 : Nat) ≠ 1) ∧
    ((2 : Nat) ∈ togglePageSelection 1 ({2} : Finset Nat) ↔ (2 : Nat) ∈ ({2} : Finset Nat)) :=
  ⟨(claim_C9_toggle_page 1 {2}).1, by decide,
   (claim_C9_toggle_page 1 {2}).2 2 (by decide)⟩

/-- Claim C10: a file-selection event whose file is absent or not of PDF
type only sets the error message; every other field of the state, the
Processing State included, is exactly as before, and no render outcome is
ever consulted. -/
theorem claim_C10_invalid_file (s : AppState) (f : Option FileInfo)
    (r : RenderOutcome) (h : isValidPdf f = false) :
    handleFileChange s f r
      = { s with error := some "Please upload a valid PDF file." } := by
  cases f with
  | none => simp [handleFileChange, isValidPdf, handleFileChangeSync]
  | some file =>
      have hne : ¬ file.fileType = pdfMime := by
        simpa [isValidPdf] using h
      simp [handleFileChange, isValidPdf, hne, handleFileChangeSync]

/-- Claim C10 witness: a plain-text file at the COMPLETE state. -/
theorem claim_C10_invalid_file_witness :
    (isValidPdf (some ⟨"notes.txt", "text/plain"⟩) = false) ∧
    handleFileChange completeState (some ⟨"notes.txt", "text/plain"⟩) .failure
      = { completeState with error := some "Please upload a valid PDF file." } :=
  ⟨by decide, claim_C10_invalid_file completeState (some ⟨"notes.txt", "text/plain"⟩)
      .failure (by decide)⟩

/-- Claim C2, amended: an extraction run that fails surfaces the failure
message, but the Processing State transitions to the ERROR state (the catch
branch of handleOcr sets ProcessingState.ERROR), not back to IDLE. -/
theorem claim_C2_extraction_failure (s : AppState) (msg : String)
    (h : (pagesToProcess s).length ≠ 0) :
    handleOcr s (.failure msg)
      = ⟨{ s with error := some msg, processingState := .ERROR }, true⟩ := by
  simp [handleOcr, h]

/-- Claim C2 witness: the amended statement at a concrete one-page state. -/
theorem claim_C2_extraction_failure_witness :
    ((pagesToProcess ocrReadyState).length ≠ 0) ∧
    handleOcr ocrReadyState (.failure "Failed to perform OCR on the document pages.")
      = ⟨{ ocrReadyState with
             error := some "Failed to perform OCR on the document pages."
             processingState := .ERROR }, true⟩ :=
  ⟨by decide, claim_C2_extraction_failure ocrReadyState
      "Failed to perform OCR on the document pages." (by decide)⟩

/-- Claim C2 counterexample: at a concrete state with one selected page, an
extraction failure puts the machine in ERROR, refuting the claim that the
state returns to IDLE. -/
theorem claim_C2_counterexample :
    (handleOcr ocrReadyState
        (.failure "Failed to perform OCR on the document pages.")).state.processingState
      = .ERROR ∧
    (handleOcr ocrReadyState
        (.failure "Failed to perform OCR on the document pages.")).state.processingState
      ≠ .IDLE := by
  refine ⟨rfl, by decide⟩

/-- Claim C6: with an empty Page Selection, an extraction request never
invokes the extraction client, surfaces the select-at-least-one-page
validation error, and changes nothing else, so a machine at IDLE stays at
IDLE. -/
theorem claim_C6_empty_selection (s : AppState) (o : OcrOutcome)
    (hSel : s.selectedPageNumbers = ∅) (hState : s.processingState = .IDLE) :
    (handleOcr s o).clientInvoked = false ∧
    (handleOcr s o).state
      = { s with error := some "Please select at least one page for OCR." } ∧
    (handleOcr s o).state.processingState = .IDLE := by
  have hp : pagesToProcess s = [] := by
    simp [pagesToProcess, hSel]
  refine ⟨?_, ?_, ?_⟩ <;> simp [handleOcr, hp, hState]

/-- Claim C6 witness: an IDLE state with rendered pages but nothing
selected. -/
theorem claim_C6_empty_selection_witness :
    ((⟨some ⟨"doc.pdf", "application/pdf"⟩, [pageOne], ∅, "", [], [], .IDLE, none⟩ :
        AppState).selectedPageNumbers = ∅) ∧
    ((⟨some ⟨"doc.pdf", "application/pdf"⟩, [pageOne], ∅, "", [], [], .IDLE, none⟩ :
        AppState).processingState = .IDLE) ∧
    ((handleOcr ⟨some ⟨"doc.pdf", "application/pdf"⟩, [pageOne], ∅, "", [], [], .IDLE, none⟩
        (.success "text")).clientInvoked = false ∧
     (handleOcr ⟨some ⟨"doc.pdf", "application/pdf"⟩, [pageOne], ∅, "", [], [], .IDLE, none⟩
        (.success "text")).state
       = { (⟨some ⟨"doc.pdf", "application/pdf"⟩, [pageOne], ∅, "", [], [], .IDLE, none⟩ :
              AppState) with
             error := some "Please select at least one page for OCR." } ∧
     (handleOcr ⟨some ⟨"doc.pdf", "application/pdf"⟩, [pageOne], ∅, "", [], [], .IDLE, none⟩
        (.success "text")).state.processingState = .IDLE) :=
  ⟨rfl, rfl, claim_C6_empty_selection _ (.success "text") rfl rfl⟩

/-- Claim C8: after a successful render of an N-page document the Page
Selection is exactly the full set `{1 .. N}`, the Pages sequence maps to
the page numbers `[1, 2, .., N]` (ascending, gap-free), and the Processing
State returns to IDLE. -/
theorem claim_C8_render_success (s : AppState) (file : FileInfo) (n : Nat)
    (image : Nat → String) (h : file.fileType = pdfMime) :
    ((handleFileChange s (some file) (.success n image)).selectedPageNumbers
        = Finset.Icc 1 n) ∧
    ((handleFileChange s (some file) (.success n image)).pdfPages.map
        (fun p => p.pageNumber) = (List.range n).map (fun i => i + 1)) ∧
    (handleFileChange s (some file) (.success n image)).processingState = .IDLE := by
  have hv : isValidPdf (some file) = true := by simp [isValidPdf, h]
  refine ⟨?_, ?_, ?_⟩ <;>
    simp [handleFileChange, hv, fileReaderOnload, handleFileChangeSync, h,
          renderedPages, loopSelection_eq_Icc, List.map_map, Function.comp]

/-- Claim C8 witness: a successful two-page render from the COMPLETE state. -/
theorem claim_C8_render_success_witness :
    (FileInfo.fileType ⟨"new.pdf", "application/pdf"⟩ = pdfMime) ∧
    (((handleFileChange completeState (some ⟨"new.pdf", "application/pdf"⟩)
        (.success 2 (fun _ => "img"))).selectedPageNumbers = Finset.Icc 1 2) ∧
     ((handleFileChange completeState (some ⟨"new.pdf", "application/pdf"⟩)
        (.success 2 (fun _ => "img"))).pdfPages.map (fun p => p.pageNumber)
          = (List.range 2).map (fun i => i + 1)) ∧
     (handleFileChange completeState (some ⟨"new.pdf", "application/pdf"⟩)
        (.success 2 (fun _ => "img"))).processingState = .IDLE) :=
  ⟨rfl, claim_C8_render_success completeState ⟨"new.pdf", "application/pdf"⟩ 2
      (fun _ => "img") rfl⟩

/-- Claim C1: an analysis run started with non-empty Extracted Text and a
non-empty Agent Selection settles with exactly one Result per selected
agent, in the order the agents were selected (the settled array is placed
by promise index, so individual completion order and individual failures
never change length or order), and the Processing State becomes COMPLETE. -/
theorem claim_C1_fanout_complete (s : AppState) (outcome : Agent → AgentOutcome)
    (hText : s.ocrText ≠ "") (hAgents : s.selectedAgents ≠ []) :
    ((handleRunAnalysis s outcome).state.results.length
        = s.selectedAgents.length) ∧
    ((handleRunAnalysis s outcome).state.results.map (fun r => r.agentName)
        = s.selectedAgents.map (fun a => a.name)) ∧
    (handleRunAnalysis s outcome).state.processingState = .COMPLETE := by
  have hlen : ¬ s.selectedAgents.length = 0 := by
    simpa [List.length_eq_zero] using hAgents
  refine ⟨?_, ?_, ?_⟩ <;>
    simp [handleRunAnalysis, hText, hlen, List.map_map, Function.comp,
          mkResult_agentName]

/-- Claim C1 witness: a two-agent run with one failure still yields two
results in selection order and the COMPLETE state. -/
theorem claim_C1_fanout_complete_witness :
    (runState.ocrText ≠ "") ∧ (runState.selectedAgents ≠ []) ∧
    (((handleRunAnalysis runState sampleOutcome).state.results.length
        = runState.selectedAgents.length) ∧
     ((handleRunAnalysis runState sampleOutcome).state.results.map
        (fun r => r.agentName) = runState.selectedAgents.map (fun a => a.name)) ∧
     (handleRunAnalysis runState sampleOutcome).state.processingState = .COMPLETE) :=
  ⟨by decide, by decide,
   claim_C1_fanout_complete runState sampleOutcome (by decide) (by decide)⟩

/-- Claim C5: in a settled analysis run, one agent's failure is isolated: a
failing agent's entry (at its selection index) carries the error-tagged
output and the System provider tag, distinguishable from the Gemini tag of
a genuine response; every succeeding agent's entry carries its own output
and the Gemini tag; and the batch still reaches COMPLETE. -/
theorem claim_C5_agent_isolation (s : AppState) (outcome : Agent → AgentOutcome)
    (hText : s.ocrText ≠ "") (hAgents : s.selectedAgents ≠ []) :
    (("System" : String) ≠ "Gemini") ∧
    (handleRunAnalysis s outcome).state.processingState = .COMPLETE ∧
    ∀ (i : Nat) (a : Agent), s.selectedAgents[i]? = some a →
      (∀ msg l, outcome a = .failure msg l →
        (handleRunAnalysis s outcome).state.results[i]?
          = some ⟨a.name, "Error: " ++ msg, l, "System", a.model⟩) ∧
      (∀ out l, outcome a = .success out l →
        (handleRunAnalysis s outcome).state.results[i]?
          = some ⟨a.name, out, l, "Gemini", a.model⟩) := by
  have hlen : ¬ s.selectedAgents.length = 0 := by
    simpa [List.length_eq_zero] using hAgents
  refine ⟨by decide, ?_, ?_⟩
  · simp [handleRunAnalysis, hText, hlen]
  · intro i a ha
    constructor
    · intro msg l hout
      simp [handleRunAnalysis, hText, hlen, List.getElem?_map, ha, mkResult, hout]
    · intro out l hout
      simp [handleRunAnalysis, hText, hlen, List.getElem?_map, ha, mkResult, hout]

/-- Claim C5 witness: with the summarizer succeeding and the sentiment agent
failing, index 0 carries the genuine Gemini-tagged output and index 1 the
System-tagged error output, and the run is COMPLETE. -/
theorem claim_C5_agent_isolation_witness :
    (runState.ocrText ≠ "") ∧ (runState.selectedAgents ≠ []) ∧
    (runState.selectedAgents[1]? = some agent2) ∧
    (sampleOutcome agent2
      = .failure "Agent \x22Sentiment Analyzer\x22 failed to execute." 2) ∧
    (handleRunAnalysis runState sampleOutcome).state.results[1]?
      = some ⟨"Sentiment Analyzer",
          "Error: " ++ "Agent \x22Sentiment Analyzer\x22 failed to execute.", 2,
          "System", "gemini-2.5-pro"⟩ :=
  ⟨by decide, by decide, rfl, rfl,
   ((claim_C5_agent_isolation runState sampleOutcome (by decide) (by decide)).2.2
      1 agent2 rfl).1 "Agent \x22Sentiment Analyzer\x22 failed to execute." 2 rfl⟩

/-- Claim C7: every point of the output-length radar series carries the
scale maximum `1.2 x max(characterCount across all current results, 1)`,
with 1.2 modelled as the rational 6/5. -/
theorem claim_C7_scale_max (results : List AnalysisResult) (point : RadarPoint)
    (h : point ∈ radarData results) :
    point.fullMark = (maxOutputLength results : ℚ) * (6 / 5) := by
  simp only [radarData, List.mem_map] at h
  obtain ⟨r, _, rfl⟩ := h
  rfl

/-- A result whose output is the character a repeated n times. -/
def resLen (name : String) (n : Nat) : AnalysisResult :=
  ⟨name, String.mk (List.replicate n 'a'), 0, "Gemini", "gemini-2.5-flash"⟩

/-- Results with character counts 0, 50 and 120. -/
def exampleResults : List AnalysisResult :=
  [resLen "A" 0, resLen "B" 50, resLen "C" 120]

/-- Results whose outputs are all empty. -/
def allEmptyResults : List AnalysisResult := [resLen "A" 0, resLen "B" 0]

/-- Claim C7 witness: at character counts [0, 50, 120] every point's scale
maximum is 144, and with all outputs empty it is 6/5 = 1.2. -/
theorem claim_C7_scale_max_witness :
    ((⟨"A", 0, 144⟩ : RadarPoint) ∈ radarData exampleResults) ∧
    ((⟨"A", 0, 144⟩ : RadarPoint).fullMark
        = (maxOutputLength exampleResults : ℚ) * (6 / 5)) ∧
    ((maxOutputLength exampleResults : ℚ) * (6 / 5) = 144) ∧
    ((radarData allEmptyResults).map (fun p => p.fullMark) = [6 / 5, 6 / 5]) := by
  have hmax : maxOutputLength exampleResults = 120 := rfl
  have h144 : (maxOutputLength exampleResults : ℚ) * (6 / 5) = 144 := by
    rw [hmax]; norm_num
  have hmem : (⟨"A", 0, 144⟩ : RadarPoint) ∈ radarData exampleResults := by
    simp only [radarData, List.mem_map]
    refine ⟨resLen "A" 0, by simp [exampleResults], ?_⟩
    simp only [RadarPoint.mk.injEq]
    exact ⟨rfl, rfl, h144⟩
  have hone : maxOutputLength [resLen "A" 0, resLen "B" 0] = 1 := rfl
  refine ⟨hmem, claim_C7_scale_max exampleResults ⟨"A", 0, 144⟩ hmem, h144, ?_⟩
  simp [radarData, allEmptyResults, hone]
